import Mathlib

/-!
Verification development for the agentic-sdr repository.

The Python sources under `src/sdr/` are shallowly embedded: configuration
loading (`config.py`), the SendGrid transport adapter (`email.py`), the
function tools (`tools.py`) and the orchestration manager (`manager.py`).
External collaborators (the process environment, the mail provider's HTTP
endpoint and the third-party agent-execution runtime) are parameters of the
embedded operations: an environment is a partial map from variable names to
strings, the provider is a function from the posted mail envelope to an HTTP
response, and an agent run is a function from an agent and an input message
to an output.
-/

namespace Sdr

/-! ### Embedding of src/sdr/config.py -/

/-- A process environment as read by `os.environ.get`: each variable is
either absent (`none`) or present with a string value. -/
def Env : Type := String → Option String

/-- Python truthiness of `os.environ.get`'s result: `None` and the empty
string are falsy, every other string is truthy (`if not api_key`). -/
def pyTruthy : Option String → Bool
  | none => false
  | some s => !(s == "")

/-- The `EmailConfig` dataclass: API key plus sender and recipient
addresses. -/
structure EmailConfig where
  api_key : String
  from_email : String
  to_email : String
  deriving Repr, DecidableEq

/-- The `ValueError` raised by `EmailConfig.from_env`, carrying its
message. -/
structure ConfigurationError where
  message : String
  deriving Repr, DecidableEq

/-- The exact error raised when `SENDGRID_API_KEY` is unset or empty. -/
def missingKeyError : ConfigurationError :=
  { message := "SENDGRID_API_KEY environment variable is not set. Please set it in your .env file." }

/-- Embedding of `EmailConfig.from_env`: read `SENDGRID_API_KEY` and fail
when it is falsy (absent or empty), otherwise build the config, with the
sender and recipient addresses falling back to the built-in literals when
their variables are unset. In the success branch `api_key` is known to be
`some` of a non-empty string, so `getD` merely unwraps it. -/
def EmailConfig.from_env (env : Env) : Except ConfigurationError EmailConfig :=
  let api_key := env ("SENDGRID_API_KEY")
  if !pyTruthy api_key then
    Except.error missingKeyError
  else
    Except.ok
      { api_key := api_key.getD ("")
        from_email := (env ("SENDGRID_FROM_EMAIL")).getD ("ed@edwarddonner.com")
        to_email := (env ("SENDGRID_TO_EMAIL")).getD ("ed.donner@gmail.com") }

/-! ### Embedding of src/sdr/email.py -/

/-- The mail envelope posted to the provider: configured sender and
recipient, a subject, a content type and a body
(`Mail(from_email, to_email, subject, content)`). -/
structure Mail where
  from_email : String
  to_email : String
  subject : String
  content_type : String
  body : String
  deriving Repr, DecidableEq

/-- The provider's HTTP response as inspected by the adapter: a status
code (`response.status_code`). -/
structure Response where
  status_code : Int
  deriving Repr, DecidableEq

/-- The mail provider, abstracted as a function from the posted envelope to
the HTTP response (`self.client.mail.send.post`). -/
def Provider : Type := Mail → Response

/-- The exception raised by the send operations on a non-accepted status,
carrying that status code. -/
structure DeliveryError where
  status_code : Int
  deriving Repr, DecidableEq

/-- The success dictionary returned by the send operations. -/
structure SendSuccess where
  status : String
  status_code : Int
  deriving Repr, DecidableEq

/-- Observable behaviour of one send operation: the envelope posted over
the wire, and the returned value or the raised error. -/
structure SendObservation where
  posted : Mail
  result : Except DeliveryError SendSuccess

/-- The envelope that `send_plain_email` builds: configured sender and
recipient, the given subject and a `text/plain` content holding `body`. -/
def plainMail (cfg : EmailConfig) (body subject : String) : Mail :=
  { from_email := cfg.from_email
    to_email := cfg.to_email
    subject := subject
    content_type := "text/plain"
    body := body }

/-- The envelope that `send_html_email` builds: configured sender and
recipient, the given subject and a `text/html` content holding
`html_body`. -/
def htmlMail (cfg : EmailConfig) (subject html_body : String) : Mail :=
  { from_email := cfg.from_email
    to_email := cfg.to_email
    subject := subject
    content_type := "text/html"
    body := html_body }

/-- Embedding of `EmailService.send_plain_email`: build the plain-text
envelope, post it once, raise on a status outside `[200, 202]` and return
the success dictionary otherwise. -/
def send_plain_email (cfg : EmailConfig) (post : Provider) (body subject : String) :
    SendObservation :=
  let mail := plainMail cfg body subject
  let response := post mail
  { posted := mail
    result :=
      if response.status_code ∉ ([200, 202] : List Int) then
        Except.error { status_code := response.status_code }
      else
        Except.ok { status := "success", status_code := response.status_code } }

/-- Embedding of `EmailService.send_html_email`: build the HTML envelope,
post it once, raise on a status outside `[200, 202]` and return the success
dictionary otherwise. -/
def send_html_email (cfg : EmailConfig) (post : Provider) (subject html_body : String) :
    SendObservation :=
  let mail := htmlMail cfg subject html_body
  let response := post mail
  { posted := mail
    result :=
      if response.status_code ∉ ([200, 202] : List Int) then
        Except.error { status_code := response.status_code }
      else
        Except.ok { status := "success", status_code := response.status_code } }

/-- The default value of `send_plain_email`'s `subject` parameter. -/
def defaultPlainSubject : String := "Sales email"

/-- Embedding of the `send_email` function tool built by
`ToolFactory.create_email_tool`: it forwards its `body` argument to
`send_plain_email`, whose signature supplies the default subject. -/
def send_email_tool (cfg : EmailConfig) (post : Provider) (body : String) : SendObservation :=
  send_plain_email cfg post body defaultPlainSubject

/-- Embedding of `EmailService.send_test_email`: plain-text send with the
fixed body and subject. -/
def send_test_email (cfg : EmailConfig) (post : Provider) : SendObservation :=
  send_plain_email cfg post ("This is an important test email") ("Test email")

/-! ### Embedding of src/sdr/config.py AgentConfig and src/sdr/agents.py -/

/-- The `AgentConfig` dataclass: model name and company information. -/
structure AgentConfig where
  model : String
  company_name : String
  company_description : String
  deriving Repr, DecidableEq

/-- The default `AgentConfig` values. -/
def defaultAgentConfig : AgentConfig :=
  { model := "gpt-4o-mini"
    company_name := "ComplAI"
    company_description := "a company that provides a SaaS tool for ensuring SOC2 compliance and preparing for audits, powered by AI" }

/-- The derived `company_context` property. -/
def AgentConfig.company_context (c : AgentConfig) : String :=
  c.company_name ++ ", " ++ c.company_description

/-- An agent definition as handed to the external runtime: display name,
instruction text and model identifier. Tool lists, handoff targets and
structured output types are runtime wiring and enter the embedding through
the run oracles instead. -/
structure Agent where
  name : String
  instructions : String
  model : String
  deriving Repr, DecidableEq

/-- The `ProfessionalSalesAgent` persona. -/
def professionalSalesAgent (cfg : AgentConfig) : Agent :=
  { name := "Professional Sales Agent"
    instructions := "You are a sales agent working for " ++ cfg.company_context ++ ". You write professional, serious cold emails."
    model := cfg.model }

/-- The `EngagingSalesAgent` persona. -/
def engagingSalesAgent (cfg : AgentConfig) : Agent :=
  { name := "Engaging Sales Agent"
    instructions := "You are a humorous, engaging sales agent working for " ++ cfg.company_context ++ ". You write witty, engaging cold emails that are likely to get a response."
    model := cfg.model }

/-- The `BusySalesAgent` persona. -/
def busySalesAgent (cfg : AgentConfig) : Agent :=
  { name := "Busy Sales Agent"
    instructions := "You are a busy sales agent working for " ++ cfg.company_context ++ ". You write concise, to the point cold emails."
    model := cfg.model }

/-- The `SalesPickerAgent` persona. -/
def salesPickerAgent (cfg : AgentConfig) : Agent :=
  { name := "sales_picker"
    instructions := "You pick the best cold sales email from the given options. Imagine you are a customer and pick the one you are most likely to respond to. Do not give an explanation; reply with the selected email only."
    model := cfg.model }

/-- The guardrail agent built by `SDRManager._create_guardrail_agent`
(its structured `NameCheckOutput` output type is captured by the
classification oracle below). -/
def guardrailAgent : Agent :=
  { name := "Name check"
    instructions := "Check if the user is including someone\x27s personal name in what they want you to do."
    model := "gpt-4o-mini" }

/-! ### Embedding of src/sdr/manager.py -/

/-- The `NameCheckOutput` pydantic model returned by the guardrail agent. -/
structure NameCheckOutput where
  is_name_in_message : Bool
  name : String
  deriving Repr, DecidableEq

/-- The `GuardrailFunctionOutput` record returned by the guardrail
function; `output_info` holds the single-key dictionary value
`found_name`. -/
structure GuardrailFunctionOutput where
  output_info : NameCheckOutput
  tripwire_triggered : Bool
  deriving Repr, DecidableEq

/-- Embedding of `SDRManager.guardrail_against_name`. `runGuardrail`
abstracts `Runner.run(self.guardrail_agent, message)`: the external
runtime's structured classification of the message by the guardrail
agent. -/
def guardrail_against_name (runGuardrail : String → NameCheckOutput) (message : String) :
    GuardrailFunctionOutput :=
  let result := runGuardrail message
  { output_info := result
    tripwire_triggered := result.is_name_in_message }

/-- Outcome of a top-level request guarded by an input guardrail. -/
inductive RunOutcome (α : Type) where
  | blocked (info : NameCheckOutput)
  | completed (value : α)
  deriving Repr

/-- Modelled from the spec: the input-guardrail protocol of the external
agent-execution runtime (the `agents` package, not part of this
repository). The guardrail attached via `input_guardrails` is evaluated
once before the guarded agent works; when its tripwire is asserted the
runtime aborts the request before any drafting or sending occurs, carrying
the guardrail's detail, and otherwise the downstream work proceeds on the
message. -/
def runWithInputGuardrail {α : Type} (runGuardrail : String → NameCheckOutput)
    (downstream : String → α) (message : String) : RunOutcome α :=
  let g := guardrail_against_name runGuardrail message
  if g.tripwire_triggered then
    RunOutcome.blocked g.output_info
  else
    RunOutcome.completed (downstream message)

/-- The three drafting personas of `generate_emails`, as a tag type. -/
inductive DraftPersona where
  | professional
  | engaging
  | busy
  deriving Repr, DecidableEq

/-- The agent behind each drafting persona tag. -/
def draftAgent (cfg : AgentConfig) : DraftPersona → Agent
  | DraftPersona.professional => professionalSalesAgent cfg
  | DraftPersona.engaging => engagingSalesAgent cfg
  | DraftPersona.busy => busySalesAgent cfg

/-- An agent run that may fail: `Runner.run` raising any exception
(abstracted as a string) or returning a `final_output` string. -/
def AgentRun : Type := Agent → String → Except String String

/-- The error of a failed run, if any. -/
def exceptErr {ε α : Type} : Except ε α → Option ε
  | Except.error e => some e
  | Except.ok _ => none

/-- Modelled from the library semantics of `asyncio.gather` on the three
awaitables of `generate_emails`: all three tasks run to completion
concurrently; `order` is the completion order of the tasks. When every task
succeeds, the values are returned in declaration order (professional,
engaging, busy) regardless of `order`; when some task fails, the exception
of the first failing task in completion order propagates. The final
fallback branches are unreachable whenever `order` contains every
persona. -/
def gatherDrafts (order : List DraftPersona) (rs : DraftPersona → Except String String) :
    Except String (List String) :=
  match order.findSome? (fun p => exceptErr (rs p)) with
  | some e => Except.error e
  | none =>
    match rs DraftPersona.professional, rs DraftPersona.engaging, rs DraftPersona.busy with
    | Except.ok a, Except.ok b, Except.ok c => Except.ok [a, b, c]
    | Except.error e, _, _ => Except.error e
    | _, Except.error e, _ => Except.error e
    | _, _, Except.error e => Except.error e

/-- Embedding of `SDRManager.generate_emails`: gather the three concurrent
runs of the drafting agents on the message and return the list of their
final outputs. -/
def generate_emails (run : AgentRun) (cfg : AgentConfig) (order : List DraftPersona)
    (message : String) : Except String (List String) :=
  gatherDrafts order (fun p => run (draftAgent cfg p) message)

/-- Embedding of Python `sep.join(xs)` as used by `pick_best_email`. -/
def pyJoin (sep : String) : List String → String
  | [] => ""
  | [s] => s
  | s :: rest => s ++ sep ++ pyJoin sep rest

/-- Embedding of `SDRManager.pick_best_email`: build the evaluation prompt
from the drafts and submit it to a fresh picker persona; `run` abstracts
`Runner.run` returning the picker's `final_output`. -/
def pick_best_email (run : Agent → String → String) (cfg : AgentConfig)
    (emails : List String) : String :=
  let emails_text := ("Cold sales emails:\n\n") ++ pyJoin ("\n\nEmail:\n\n") emails
  run (salesPickerAgent cfg) emails_text

/-! ### Theorems about the transport adapter and configuration -/

/-- A concrete configuration used to instantiate hypotheses of the
theorems below. -/
def witnessConfig : EmailConfig :=
  { api_key := "SG.key", from_email := "a@b.c", to_email := "d@e.f" }

/-- C1: for every integer status code returned by the provider, each of
`send_plain_email` and `send_html_email` succeeds if and only if the status
code is 200 or 202, and on every other status code it fails with a
DeliveryError carrying that status code. -/
theorem transport_status_contract (cfg : EmailConfig) (post : Provider)
    (body subject html_body : String) (cp ch : Int)
    (hcp : (post (plainMail cfg body subject)).status_code = cp)
    (hch : (post (htmlMail cfg subject html_body)).status_code = ch) :
    ((cp = 200 ∨ cp = 202) →
      (send_plain_email cfg post body subject).result =
        Except.ok { status := "success", status_code := cp }) ∧
    (¬(cp = 200 ∨ cp = 202) →
      (send_plain_email cfg post body subject).result =
        Except.error { status_code := cp }) ∧
    ((∃ r, (send_plain_email cfg post body subject).result = Except.ok r) ↔
      (cp = 200 ∨ cp = 202)) ∧
    ((ch = 200 ∨ ch = 202) →
      (send_html_email cfg post subject html_body).result =
        Except.ok { status := "success", status_code := ch }) ∧
    (¬(ch = 200 ∨ ch = 202) →
      (send_html_email cfg post subject html_body).result =
        Except.error { status_code := ch }) ∧
    ((∃ r, (send_html_email cfg post subject html_body).result = Except.ok r) ↔
      (ch = 200 ∨ ch = 202)) := by
  have hp : (send_plain_email cfg post body subject).result =
      if cp ∉ ([200, 202] : List Int) then Except.error { status_code := cp }
      else Except.ok { status := "success", status_code := cp } := by
    simp only [send_plain_email, hcp]
  have hh : (send_html_email cfg post subject html_body).result =
      if ch ∉ ([200, 202] : List Int) then Except.error { status_code := ch }
      else Except.ok { status := "success", status_code := ch } := by
    simp only [send_html_email, hch]
  rw [hp, hh]
  by_cases h1 : cp = 200 ∨ cp = 202 <;> by_cases h2 : ch = 200 ∨ ch = 202 <;>
    simp [h1, h2, List.mem_cons]

/-- Witness for C1: a boundary status code 199 makes `send_plain_email`
fail with a DeliveryError carrying 199. -/
theorem transport_status_contract_witness :
    (send_plain_email witnessConfig (fun _ => ({ status_code := 199 } : Response))
        ("hello") ("Sales email")).result = Except.error { status_code := 199 } :=
  (transport_status_contract witnessConfig (fun _ => ({ status_code := 199 } : Response))
    ("hello") ("Sales email") ("x") 199 199 rfl rfl).2.1 (by decide)

/-- Helper: when the secret variable is falsy, `from_env` raises the
configuration error. -/
theorem from_env_error_of_falsy (env : Env)
    (h : pyTruthy (env ("SENDGRID_API_KEY")) = false) :
    EmailConfig.from_env env = Except.error missingKeyError := by
  unfold EmailConfig.from_env
  simp [h]

/-- Helper: when the secret variable is truthy, `from_env` succeeds with
the unwrapped key and defaulted addresses. -/
theorem from_env_ok_of_truthy (env : Env)
    (h : pyTruthy (env ("SENDGRID_API_KEY")) = true) :
    EmailConfig.from_env env =
      Except.ok
        { api_key := (env ("SENDGRID_API_KEY")).getD ("")
          from_email := (env ("SENDGRID_FROM_EMAIL")).getD ("ed@edwarddonner.com")
          to_email := (env ("SENDGRID_TO_EMAIL")).getD ("ed.donner@gmail.com") } := by
  unfold EmailConfig.from_env
  simp [h]

/-- C6: `EmailConfig.from_env` fails with the configuration error exactly
when the secret credential is missing (the variable is falsy, i.e. unset or
empty — see also the empty-string refinement below), and does so before any
provider interaction (the operation never consults a provider: its only
input is the environment); when the secret is present, the sender and
recipient addresses fall back to the built-in default literals whenever
their variables are unset. -/
theorem from_env_contract (env : Env) :
    ((∃ e, EmailConfig.from_env env = Except.error e) ↔
      pyTruthy (env ("SENDGRID_API_KEY")) = false) ∧
    (∀ cfg, EmailConfig.from_env env = Except.ok cfg →
      ((env ("SENDGRID_FROM_EMAIL")) = none → cfg.from_email = "ed@edwarddonner.com") ∧
      ((env ("SENDGRID_TO_EMAIL")) = none → cfg.to_email = "ed.donner@gmail.com")) := by
  constructor
  · constructor
    · rintro ⟨e, he⟩
      cases h : pyTruthy (env ("SENDGRID_API_KEY"))
      · rfl
      · rw [from_env_ok_of_truthy env h] at he
        exact absurd he (by simp)
    · intro h
      exact ⟨missingKeyError, from_env_error_of_falsy env h⟩
  · intro cfg hcfg
    cases h : pyTruthy (env ("SENDGRID_API_KEY"))
    · rw [from_env_error_of_falsy env h] at hcfg
      exact absurd hcfg (by simp)
    · rw [from_env_ok_of_truthy env h] at hcfg
      injection hcfg with h2
      subst h2
      constructor
      · intro hfrom
        simp [hfrom]
      · intro hto
        simp [hto]

/-- Witness for C6: an environment without the secret makes `from_env`
fail, and one with the secret but no address overrides yields the default
sender. -/
theorem from_env_contract_witness :
    (∃ e, EmailConfig.from_env (fun _ => none) = Except.error e) ∧
    (∀ cfg, EmailConfig.from_env
        (fun v => if v == "SENDGRID_API_KEY" then some ("SG.key") else none) =
        Except.ok cfg → cfg.from_email = "ed@edwarddonner.com") :=
  ⟨(from_env_contract (fun _ => none)).1.mpr rfl,
   fun cfg hcfg =>
    ((from_env_contract
      (fun v => if v == "SENDGRID_API_KEY" then some ("SG.key") else none)).2
      cfg hcfg).1 rfl⟩

/-- C9: `from_env` treats an empty `SENDGRID_API_KEY` the same as an
absent one — in either case it fails with the configuration error — and
every successfully constructed config has a non-empty `api_key`. -/
theorem from_env_empty_key_contract (env : Env) :
    (((env ("SENDGRID_API_KEY")) = none ∨ (env ("SENDGRID_API_KEY")) = some ("")) →
      EmailConfig.from_env env = Except.error missingKeyError) ∧
    (∀ cfg, EmailConfig.from_env env = Except.ok cfg → cfg.api_key ≠ "") := by
  constructor
  · rintro (h | h) <;> exact from_env_error_of_falsy env (by simp [h, pyTruthy])
  · intro cfg hcfg
    cases hk : env ("SENDGRID_API_KEY") with
    | none =>
      rw [from_env_error_of_falsy env (by simp [hk, pyTruthy])] at hcfg
      exact absurd hcfg (by simp)
    | some k =>
      by_cases hke : k = ""
      · subst hke
        rw [from_env_error_of_falsy env (by simp [hk, pyTruthy])] at hcfg
        exact absurd hcfg (by simp)
      · rw [from_env_ok_of_truthy env (by simp [hk, pyTruthy, hke])] at hcfg
        injection hcfg with h2
        subst h2
        simpa [hk] using hke

/-- Witness for C9: the key set to the empty string fails exactly like an
unset key, and a good environment yields a non-empty api_key. -/
theorem from_env_empty_key_contract_witness :
    EmailConfig.from_env (fun _ => some ("")) = Except.error missingKeyError ∧
    (∀ cfg, EmailConfig.from_env (fun _ => some ("SG.key")) = Except.ok cfg →
      cfg.api_key ≠ "") :=
  ⟨(from_env_empty_key_contract (fun _ => some (""))).1 (Or.inr rfl),
   (from_env_empty_key_contract (fun _ => some ("SG.key"))).2⟩

/-- C7: the `send_email` tool transmits its body as a plain-text email
(content type `text/plain`) with the fixed default subject
`Sales email`: it is the plain-text transport operation applied to that
body and subject. -/
theorem send_email_tool_contract (cfg : EmailConfig) (post : Provider) (body : String) :
    (send_email_tool cfg post body).posted.content_type = "text/plain" ∧
    (send_email_tool cfg post body).posted.subject = "Sales email" ∧
    (send_email_tool cfg post body).posted.body = body ∧
    send_email_tool cfg post body = send_plain_email cfg post body ("Sales email") :=
  ⟨rfl, rfl, rfl, rfl⟩

/-- C8: `send_test_email` is extensionally the plain-text send applied to
the fixed test body and subject: for every provider it posts the same
envelope and returns or fails identically. -/
theorem send_test_email_contract (cfg : EmailConfig) (post : Provider) :
    send_test_email cfg post =
      send_plain_email cfg post ("This is an important test email") ("Test email") ∧
    (send_test_email cfg post).posted.body = "This is an important test email" ∧
    (send_test_email cfg post).posted.subject = "Test email" ∧
    (send_test_email cfg post).posted.content_type = "text/plain" :=
  ⟨rfl, rfl, rfl, rfl⟩

/-! ### Theorems about the orchestration manager -/

/-- C2: the guardrail function returns a `GuardrailFunctionOutput` whose
tripwire equals the guardrail agent's `is_name_in_message` classification
of the message; a true classification blocks the request before any
downstream drafting or sending runs, a false one lets the downstream work
proceed. -/
theorem guardrail_tripwire_contract {α : Type} (runGuardrail : String → NameCheckOutput)
    (downstream : String → α) (message : String) :
    (guardrail_against_name runGuardrail message).tripwire_triggered =
      (runGuardrail message).is_name_in_message ∧
    ((runGuardrail message).is_name_in_message = true →
      runWithInputGuardrail runGuardrail downstream message =
        RunOutcome.blocked (runGuardrail message)) ∧
    ((runGuardrail message).is_name_in_message = false →
      runWithInputGuardrail runGuardrail downstream message =
        RunOutcome.completed (downstream message)) := by
  refine ⟨rfl, ?_, ?_⟩ <;> intro h <;>
    simp [runWithInputGuardrail, guardrail_against_name, h]

/-- Witness for C2: a classifier that finds a name blocks the request with
that classification attached. -/
theorem guardrail_tripwire_contract_witness :
    runWithInputGuardrail
        (fun _ => ({ is_name_in_message := true, name := "Alice" } : NameCheckOutput))
        (fun m => m) ("Send an email to Alice") =
      RunOutcome.blocked { is_name_in_message := true, name := "Alice" } :=
  (guardrail_tripwire_contract
    (fun _ => ({ is_name_in_message := true, name := "Alice" } : NameCheckOutput))
    (fun m => m) ("Send an email to Alice")).2.1 rfl

/-- C3: when the three drafting runs succeed, `generate_emails` returns
exactly three outputs, one per drafting persona, in declaration order
(professional, engaging, busy), whatever the completion order of the three
concurrent calls. -/
theorem generate_emails_order_contract (run : AgentRun) (cfg : AgentConfig)
    (order : List DraftPersona) (message : String) (a b c : String)
    (hp : run (professionalSalesAgent cfg) message = Except.ok a)
    (he : run (engagingSalesAgent cfg) message = Except.ok b)
    (hb : run (busySalesAgent cfg) message = Except.ok c) :
    generate_emails run cfg order message = Except.ok [a, b, c] := by
  have hnone : (order.findSome? fun p => exceptErr (run (draftAgent cfg p) message)) = none := by
    rw [List.findSome?_eq_none_iff]
    intro p _
    cases p <;> simp [draftAgent, hp, he, hb, exceptErr]
  unfold generate_emails gatherDrafts
  rw [hnone]
  simp [draftAgent, hp, he, hb]

/-- Witness for C3: with a runner that echoes each persona's display name
in any completion order, the list comes back in declaration order. -/
theorem generate_emails_order_contract_witness :
    generate_emails (fun ag _ => Except.ok ag.name) defaultAgentConfig
        [DraftPersona.busy, DraftPersona.engaging, DraftPersona.professional] ("m") =
      Except.ok ["Professional Sales Agent", "Engaging Sales Agent", "Busy Sales Agent"] :=
  generate_emails_order_contract (fun ag _ => Except.ok ag.name) defaultAgentConfig
    [DraftPersona.busy, DraftPersona.engaging, DraftPersona.professional] ("m")
    ("Professional Sales Agent") ("Engaging Sales Agent") ("Busy Sales Agent") rfl rfl rfl

/-- C4: `generate_emails` is an all-or-nothing join — when any of the
three concurrent runs fails, the whole operation fails by propagating one
of the failing runs' errors, and a successful return always carries exactly
three drafts, never a partial list. -/
theorem generate_emails_all_or_nothing (run : AgentRun) (cfg : AgentConfig)
    (order : List DraftPersona) (message : String)
    (hall : ∀ p : DraftPersona, p ∈ order) :
    ((∃ p e, run (draftAgent cfg p) message = Except.error e) →
      ∃ e, generate_emails run cfg order message = Except.error e ∧
        ∃ p, run (draftAgent cfg p) message = Except.error e) ∧
    (∀ l, generate_emails run cfg order message = Except.ok l → l.length = 3) := by
  constructor
  · rintro ⟨p0, e0, hfail⟩
    have hne : (order.findSome? fun p => exceptErr (run (draftAgent cfg p) message)) ≠ none := by
      rw [Ne, List.findSome?_eq_none_iff]
      intro hnone
      have h0 := hnone p0 (hall p0)
      rw [hfail] at h0
      exact absurd h0 (by simp [exceptErr])
    obtain ⟨e, he⟩ := Option.ne_none_iff_exists'.mp hne
    obtain ⟨p, hpmem, hpe⟩ := List.exists_of_findSome?_eq_some he
    refine ⟨e, ?_, p, ?_⟩
    · unfold generate_emails gatherDrafts
      rw [he]
    · cases hrun : run (draftAgent cfg p) message with
      | error e2 =>
        rw [hrun] at hpe
        simp only [exceptErr, Option.some.injEq] at hpe
        rw [hpe]
      | ok v =>
        rw [hrun] at hpe
        exact absurd hpe (by simp [exceptErr])
  · intro l hl
    unfold generate_emails gatherDrafts at hl
    cases hfs : (order.findSome? fun p => exceptErr (run (draftAgent cfg p) message)) with
    | some e =>
      rw [hfs] at hl
      exact absurd hl (by simp)
    | none =>
      rw [hfs] at hl
      cases h1 : run (draftAgent cfg DraftPersona.professional) message <;>
        cases h2 : run (draftAgent cfg DraftPersona.engaging) message <;>
          cases h3 : run (draftAgent cfg DraftPersona.busy) message <;>
            simp_all <;> exact hl ▸ rfl

/-- Witness for C4: when every run fails, the operation fails with one of
those errors. -/
theorem generate_emails_all_or_nothing_witness :
    ∃ e, generate_emails (fun _ _ => Except.error ("boom")) defaultAgentConfig
        [DraftPersona.professional, DraftPersona.engaging, DraftPersona.busy] ("m") =
          Except.error e ∧
      ∃ p, (fun (_ : Agent) (_ : String) => (Except.error ("boom") : Except String String))
          (draftAgent defaultAgentConfig p) ("m") = Except.error e :=
  (generate_emails_all_or_nothing (fun _ _ => Except.error ("boom")) defaultAgentConfig
    [DraftPersona.professional, DraftPersona.engaging, DraftPersona.busy] ("m")
    (by intro p; cases p <;> simp)).1 ⟨DraftPersona.professional, "boom", rfl⟩

/-- Helper: the tail worker of `String.intercalate`, expressed through
`pyJoin`. -/
theorem intercalate_go_eq_pyJoin (s : String) :
    ∀ (l : List String) (acc : String),
      String.intercalate.go acc s l = pyJoin s (acc :: l) := by
  intro l
  induction l with
  | nil =>
    intro acc
    rfl
  | cons a as ih =>
    intro acc
    rw [show String.intercalate.go acc s (a :: as) =
      String.intercalate.go (acc ++ s ++ a) s as from rfl, ih]
    cases as with
    | nil => rfl
    | cons b bs => simp [pyJoin, String.append_assoc]

/-- Helper: Python `sep.join` agrees with the library `String.intercalate`
on every list. -/
theorem pyJoin_eq_intercalate (s : String) (l : List String) :
    pyJoin s l = String.intercalate s l := by
  cases l with
  | nil => rfl
  | cons a as =>
    rw [show String.intercalate s (a :: as) = String.intercalate.go a s as from rfl,
      intercalate_go_eq_pyJoin]

/-- C5: for every non-empty list of drafts, `pick_best_email` submits to
the picker persona exactly the prefix followed by the drafts, in their
given order, joined with the literal separator, and returns the picker's
single string result. -/
theorem pick_best_email_prompt_contract (run : Agent → String → String)
    (cfg : AgentConfig) (e : String) (es : List String) :
    pick_best_email run cfg (e :: es) =
      run (salesPickerAgent cfg)
        (("Cold sales emails:\n\n") ++ String.intercalate ("\n\nEmail:\n\n") (e :: es)) := by
  unfold pick_best_email
  rw [pyJoin_eq_intercalate]

/-- C10: on the empty draft list `pick_best_email` still submits, and the
constructed prompt is exactly the prefix with no draft text appended. -/
theorem pick_best_email_empty_contract (run : Agent → String → String) (cfg : AgentConfig) :
    pick_best_email run cfg [] = run (salesPickerAgent cfg) ("Cold sales emails:\n\n") := by
  unfold pick_best_email
  rw [show pyJoin ("\n\nEmail:\n\n") [] = "" from rfl, String.append_empty]

end Sdr
